import Mathlib

/-!
Verification of the order-lifecycle and access-control core of a
restaurant point-of-sale backend.  The definitions below are shallow
embeddings of the TypeScript source: the order controller
(updateOrderStatus, updateOrder, deleteOrder), the pre-save hooks and
validators of the order model (order-number generation, total
recomputation), the auth middleware (hasPermission, requireRoleLevel,
requireAdditionalAuth) and the coarse AuthService.requireAdditionalAuth
check.  Persistence, HTTP transport and token cryptography are treated
as external collaborators: database lookups and JWT verification enter
the functions as explicit arguments describing their outcome.
-/

namespace SmartDine

/-- Order status enumeration of the order model. -/
inductive OrderStatus
  | pending
  | confirmed
  | preparing
  | ready
  | served
  | cancelled
deriving DecidableEq, Repr

/-- The status transition table hard-coded in updateOrderStatus of
orderController.ts. -/
def validTransitions : OrderStatus → List OrderStatus
  | .pending => [.confirmed, .cancelled]
  | .confirmed => [.preparing, .cancelled]
  | .preparing => [.ready, .cancelled]
  | .ready => [.served]
  | .served => []
  | .cancelled => []

/-- A line item of an order (price and quantity are the fields that the
money pipeline reads). -/
structure OrderItem where
  price : Int
  quantity : Int
deriving DecidableEq, Repr

/-- The order document fields relevant to the lifecycle logic. -/
structure OrderDoc where
  restaurantId : String
  items : List OrderItem
  subtotal : Int
  tax : Int
  discount : Int
  total : Int
  status : OrderStatus
  notes : String
deriving DecidableEq, Repr

/-- Dirty-field flags, the result of the isModified calls that the
pre-save total hook performs. -/
structure Modified where
  items : Bool
  subtotal : Bool
  tax : Bool
  discount : Bool
deriving DecidableEq, Repr

/-- No field flagged dirty (a status-only save). -/
def noneModified : Modified := ⟨false, false, false, false⟩

/-- items.reduce of the pre-save hook: the sum of price times quantity
over the items, starting from 0. -/
def itemsSubtotal (items : List OrderItem) : Int :=
  items.foldl (fun sum it => sum + it.price * it.quantity) 0

/-- The pre-save total hook of the order model: when items, subtotal,
tax or discount changed, first recompute subtotal from the items (only
when the items changed), then set total to subtotal + tax - discount,
with no clamping. -/
def calcTotalHook (m : Modified) (o : OrderDoc) : OrderDoc :=
  if m.items || m.subtotal || m.tax || m.discount then
    let o1 := if m.items then { o with subtotal := itemsSubtotal o.items } else o
    { o1 with total := o1.subtotal + o1.tax - o1.discount }
  else o

/-- The schema validator of a single line item: price at least 0 and
quantity at least 1. -/
def validItem (it : OrderItem) : Bool :=
  decide (0 ≤ it.price) && decide (1 ≤ it.quantity)

/-- The document validators of the order schema: at least one item,
item-level bounds, and the min-0 validators on subtotal, tax, discount
and total.  Validation runs on the document state before the pre-save
hooks fire. -/
def validateOrderDoc (o : OrderDoc) : Bool :=
  decide (0 < o.items.length) && o.items.all validItem &&
  decide (0 ≤ o.subtotal) && decide (0 ≤ o.tax) &&
  decide (0 ≤ o.discount) && decide (0 ≤ o.total)

/-- Failure of the document save pipeline. -/
inductive SaveErr
  | validationFailed
deriving DecidableEq, Repr

/-- document.save(): document validation first, then the pre-save total
hook runs on the validated state and the hook result is written. -/
def saveOrder (m : Modified) (o : OrderDoc) : Except SaveErr OrderDoc :=
  if validateOrderDoc o then Except.ok (calcTotalHook m o)
  else Except.error SaveErr.validationFailed

/-- Error responses produced by the order controller. -/
inductive OrderErr
  | statusRequired
  | invalidTransition (src : OrderStatus) (dst : OrderStatus)
  | immutableState
  | deleteNotAllowed
  | validationError
  | saveFailed
deriving DecidableEq, Repr

/-- HTTP status code the controller attaches to each error response. -/
def errStatus : OrderErr → Nat
  | .statusRequired => 400
  | .invalidTransition _ _ => 400
  | .immutableState => 400
  | .deleteNotAllowed => 400
  | .validationError => 400
  | .saveFailed => 500

/-- updateOrderStatus of orderController.ts, on an order already fetched
for the tenant of the caller: require a status in the body, consult the
transition table, and on success mutate the status and save (a
status-only save, so no money flag is dirty). -/
def updateOrderStatus (o : OrderDoc) (body : Option OrderStatus) :
    Except OrderErr OrderDoc :=
  match body with
  | none => Except.error OrderErr.statusRequired
  | some s =>
    if (validTransitions o.status).contains s then
      match saveOrder noneModified { o with status := s } with
      | Except.ok o1 => Except.ok o1
      | Except.error _ => Except.error OrderErr.saveFailed
    else Except.error (OrderErr.invalidTransition o.status s)

/-- A general update request body: fields absent when the client did
not send them. -/
structure OrderPatch where
  items : Option (List OrderItem) := none
  subtotal : Option Int := none
  tax : Option Int := none
  discount : Option Int := none
  total : Option Int := none
  status : Option OrderStatus := none
  notes : Option String := none
deriving DecidableEq, Repr

/-- findByIdAndUpdate: overwrite exactly the fields present in the
patch. -/
def applyPatch (o : OrderDoc) (p : OrderPatch) : OrderDoc :=
  { o with
    items := p.items.getD o.items
    subtotal := p.subtotal.getD o.subtotal
    tax := p.tax.getD o.tax
    discount := p.discount.getD o.discount
    total := p.total.getD o.total
    status := p.status.getD o.status
    notes := p.notes.getD o.notes }

/-- The update validators run by findByIdAndUpdate with runValidators,
on the paths present in the patch. -/
def validatePatch (p : OrderPatch) : Bool :=
  (match p.items with
   | some its => decide (0 < its.length) && its.all validItem
   | none => true) &&
  (match p.subtotal with | some v => decide (0 ≤ v) | none => true) &&
  (match p.tax with | some v => decide (0 ≤ v) | none => true) &&
  (match p.discount with | some v => decide (0 ≤ v) | none => true) &&
  (match p.total with | some v => decide (0 ≤ v) | none => true)

/-- updateOrder of orderController.ts, on a fetched order: reject
served and cancelled orders before looking at the patch at all, else
apply the patch through findByIdAndUpdate (update validators only, no
pre-save hooks and no transition check). -/
def updateOrder (o : OrderDoc) (p : OrderPatch) : Except OrderErr OrderDoc :=
  if o.status == OrderStatus.served || o.status == OrderStatus.cancelled then
    Except.error OrderErr.immutableState
  else if validatePatch p then Except.ok (applyPatch o p)
  else Except.error OrderErr.validationError

/-- deleteOrder of orderController.ts, on a fetched order: only pending
and cancelled orders may be deleted. -/
def deleteOrder (o : OrderDoc) : Except OrderErr Unit :=
  if o.status != OrderStatus.pending && o.status != OrderStatus.cancelled then
    Except.error OrderErr.deleteNotAllowed
  else Except.ok ()

/-- A concrete well-formed pending order used in the witnesses. -/
def sampleOrder : OrderDoc :=
  { restaurantId := "r1"
    items := [⟨100, 1⟩]
    subtotal := 100
    tax := 10
    discount := 5
    total := 105
    status := OrderStatus.pending
    notes := "" }

/-- Replacing the status leaves the validated fields untouched. -/
theorem validate_set_status (o : OrderDoc) (s : OrderStatus) :
    validateOrderDoc { o with status := s } = validateOrderDoc o := rfl

/-- The total hook does nothing on a status-only save. -/
theorem calcTotalHook_noneModified (o : OrderDoc) :
    calcTotalHook noneModified o = o := rfl

/-- Claim C1: updateOrderStatus rejects with a 400 error exactly when
the requested status is not in the allowed set of the transition table
for the current status, and otherwise sets the status and persists; in
particular served to preparing fails and pending to confirmed
succeeds. -/
theorem updateOrderStatus_transition_table (o : OrderDoc) (s : OrderStatus)
    (hv : validateOrderDoc o = true) :
    (updateOrderStatus o (some s)
        = Except.error (OrderErr.invalidTransition o.status s)
      ↔ (validTransitions o.status).contains s = false)
    ∧ ((validTransitions o.status).contains s = true
        → updateOrderStatus o (some s) = Except.ok { o with status := s })
    ∧ errStatus (OrderErr.invalidTransition o.status s) = 400
    ∧ (validTransitions OrderStatus.served).contains OrderStatus.preparing = false
    ∧ (validTransitions OrderStatus.pending).contains OrderStatus.confirmed = true := by
  have hv2 : validateOrderDoc { o with status := s } = true := by
    rw [validate_set_status]; exact hv
  by_cases hm : s ∈ validTransitions o.status
  · have hc : (validTransitions o.status).contains s = true := by simpa using hm
    refine ⟨?_, fun _ => ?_, rfl, by decide, by decide⟩
    · rw [hc]
      constructor
      · intro he
        simp [updateOrderStatus, hm, saveOrder, hv2, calcTotalHook_noneModified] at he
      · intro hf; simp at hf
    · simp [updateOrderStatus, hm, saveOrder, hv2, calcTotalHook_noneModified]
  · have hc : (validTransitions o.status).contains s = false := by simpa using hm
    refine ⟨?_, ?_, rfl, by decide, by decide⟩
    · rw [hc]
      constructor
      · intro _; rfl
      · intro _
        simp [updateOrderStatus, hm]
    · intro h; rw [hc] at h; simp at h

/-- Witness for claim C1 at the sample pending order and requested
status confirmed. -/
theorem updateOrderStatus_transition_table_witness :
    (updateOrderStatus sampleOrder (some OrderStatus.confirmed)
        = Except.error (OrderErr.invalidTransition sampleOrder.status OrderStatus.confirmed)
      ↔ (validTransitions sampleOrder.status).contains OrderStatus.confirmed = false)
    ∧ ((validTransitions sampleOrder.status).contains OrderStatus.confirmed = true
        → updateOrderStatus sampleOrder (some OrderStatus.confirmed)
            = Except.ok { sampleOrder with status := OrderStatus.confirmed })
    ∧ errStatus (OrderErr.invalidTransition sampleOrder.status OrderStatus.confirmed) = 400
    ∧ (validTransitions OrderStatus.served).contains OrderStatus.preparing = false
    ∧ (validTransitions OrderStatus.pending).contains OrderStatus.confirmed = true :=
  updateOrderStatus_transition_table sampleOrder OrderStatus.confirmed (by decide)

/-- The dirty-flag pattern of an update that changed only the discount. -/
def discountModified : Modified := ⟨false, false, false, true⟩

/-- Claim C2: whenever items, subtotal, tax or discount change, a save
recomputes total as subtotal + tax - discount with no clamping, and
recomputes subtotal from the items when the items changed; the concrete
update of the sample order (subtotal 100, tax 10) to discount 200 saves
successfully with total -90. -/
theorem order_total_recompute :
    (∀ (m : Modified) (o : OrderDoc),
        (m.items || m.subtotal || m.tax || m.discount) = true →
        ((calcTotalHook m o).total
            = (calcTotalHook m o).subtotal + (calcTotalHook m o).tax
              - (calcTotalHook m o).discount)
        ∧ (m.items = true → (calcTotalHook m o).subtotal = itemsSubtotal o.items))
    ∧ (∀ (m : Modified) (o : OrderDoc), validateOrderDoc o = true →
        saveOrder m o = Except.ok (calcTotalHook m o))
    ∧ saveOrder discountModified { sampleOrder with discount := 200 }
        = Except.ok { sampleOrder with discount := 200, total := -90 } := by
  refine ⟨?_, ?_, rfl⟩
  · intro m o h
    obtain ⟨mi, ms, mt, md⟩ := m
    cases mi with
    | true => exact ⟨by simp [calcTotalHook], fun _ => by simp [calcTotalHook]⟩
    | false =>
      refine ⟨?_, fun hf => by simp at hf⟩
      simp only [Bool.false_or] at h
      simp [calcTotalHook, h]
  · intro m o hv
    simp [saveOrder, hv]

/-- Witness for claim C2 at the discount-only dirty flags and the
sample order. -/
theorem order_total_recompute_witness :
    (discountModified.items || discountModified.subtotal || discountModified.tax
      || discountModified.discount) = true
    ∧ validateOrderDoc sampleOrder = true
    ∧ (((calcTotalHook discountModified sampleOrder).total
          = (calcTotalHook discountModified sampleOrder).subtotal
            + (calcTotalHook discountModified sampleOrder).tax
            - (calcTotalHook discountModified sampleOrder).discount)
        ∧ (discountModified.items = true
            → (calcTotalHook discountModified sampleOrder).subtotal
                = itemsSubtotal sampleOrder.items))
    ∧ saveOrder discountModified sampleOrder
        = Except.ok (calcTotalHook discountModified sampleOrder) :=
  ⟨by decide, by decide,
    order_total_recompute.1 discountModified sampleOrder (by decide),
    order_total_recompute.2.1 discountModified sampleOrder (by decide)⟩

/-- A patch that touches several fields, among them one that would not
even pass the update validators. -/
def aggressivePatch : OrderPatch :=
  { subtotal := some (-50), discount := some 7, status := some OrderStatus.pending,
    notes := some "late edit" }

/-- Claim C3: on an order whose status is served or cancelled,
updateOrder fails with the same 400 error for every patch content, so
the rejection precedes any inspection of the patch and nothing is
applied. -/
theorem updateOrder_rejects_terminal_orders (o : OrderDoc) (p : OrderPatch)
    (h : o.status = OrderStatus.served ∨ o.status = OrderStatus.cancelled) :
    updateOrder o p = Except.error OrderErr.immutableState
    ∧ errStatus OrderErr.immutableState = 400 := by
  rcases h with h | h <;> exact ⟨by simp [updateOrder, h], rfl⟩

/-- Witness for claim C3: a served order together with a patch that the
update validators would reject, still answered with the state error. -/
theorem updateOrder_rejects_terminal_orders_witness :
    ({ sampleOrder with status := OrderStatus.served }.status = OrderStatus.served
      ∨ { sampleOrder with status := OrderStatus.served }.status = OrderStatus.cancelled)
    ∧ (updateOrder { sampleOrder with status := OrderStatus.served } aggressivePatch
          = Except.error OrderErr.immutableState
        ∧ errStatus OrderErr.immutableState = 400) :=
  ⟨Or.inl rfl,
    updateOrder_rejects_terminal_orders { sampleOrder with status := OrderStatus.served }
      aggressivePatch (Or.inl rfl)⟩

/-- Claim C4: deleteOrder succeeds exactly on pending and cancelled
orders and answers every other status with a 400 rejection. -/
theorem deleteOrder_only_pending_or_cancelled (o : OrderDoc) :
    (deleteOrder o = Except.ok ()
      ↔ o.status = OrderStatus.pending ∨ o.status = OrderStatus.cancelled)
    ∧ (o.status ≠ OrderStatus.pending → o.status ≠ OrderStatus.cancelled →
        deleteOrder o = Except.error OrderErr.deleteNotAllowed
        ∧ errStatus OrderErr.deleteNotAllowed = 400) := by
  cases hs : o.status <;> simp [deleteOrder, hs, errStatus]

/-- Witness for claim C4 at a ready order: not deletable. -/
theorem deleteOrder_only_pending_or_cancelled_witness :
    ((deleteOrder { sampleOrder with status := OrderStatus.ready } = Except.ok ()
      ↔ { sampleOrder with status := OrderStatus.ready }.status = OrderStatus.pending
        ∨ { sampleOrder with status := OrderStatus.ready }.status = OrderStatus.cancelled)
    ∧ ({ sampleOrder with status := OrderStatus.ready }.status ≠ OrderStatus.pending
        → { sampleOrder with status := OrderStatus.ready }.status ≠ OrderStatus.cancelled
        → deleteOrder { sampleOrder with status := OrderStatus.ready }
            = Except.error OrderErr.deleteNotAllowed
          ∧ errStatus OrderErr.deleteNotAllowed = 400)) :=
  deleteOrder_only_pending_or_cancelled { sampleOrder with status := OrderStatus.ready }

/-- Claim C10: updateOrder applies a status patch without consulting the
transition table whenever the current status is not served and not
cancelled; concretely, patching the pending sample order straight to
served succeeds, while updateOrderStatus rejects that same jump. -/
theorem updateOrder_bypasses_transition_table (o : OrderDoc) (s : OrderStatus)
    (h1 : o.status ≠ OrderStatus.served) (h2 : o.status ≠ OrderStatus.cancelled) :
    updateOrder o { status := some s } = Except.ok { o with status := s }
    ∧ updateOrder sampleOrder { status := some OrderStatus.served }
        = Except.ok { sampleOrder with status := OrderStatus.served }
    ∧ updateOrderStatus sampleOrder (some OrderStatus.served)
        = Except.error (OrderErr.invalidTransition OrderStatus.pending OrderStatus.served) := by
  refine ⟨?_, rfl, rfl⟩
  simp [updateOrder, h1, h2, validatePatch, applyPatch]

/-- Witness for claim C10 at the pending sample order. -/
theorem updateOrder_bypasses_transition_table_witness :
    sampleOrder.status ≠ OrderStatus.served
    ∧ sampleOrder.status ≠ OrderStatus.cancelled
    ∧ (updateOrder sampleOrder { status := some OrderStatus.served }
          = Except.ok { sampleOrder with status := OrderStatus.served }
        ∧ updateOrder sampleOrder { status := some OrderStatus.served }
            = Except.ok { sampleOrder with status := OrderStatus.served }
        ∧ updateOrderStatus sampleOrder (some OrderStatus.served)
            = Except.error (OrderErr.invalidTransition OrderStatus.pending OrderStatus.served)) :=
  ⟨by decide, by decide,
    updateOrder_bypasses_transition_table sampleOrder OrderStatus.served
      (by decide) (by decide)⟩

/-- padStart with the zero character on a decimal string. -/
def padZeros (len : Nat) (s : String) : String :=
  String.mk (List.replicate (len - s.length) '0') ++ s

/-- JavaScript slice with argument -2 on a decimal string: the last two
characters (the whole string when it is shorter). -/
def lastTwo (s : String) : String :=
  String.mk (s.toList.drop (s.length - 2))

/-- The order number computed by the pre-save hook, from the local date
components (year as getFullYear, month already incremented to 1..12,
day of month) and the stored count of orders of the same tenant created
within the current local calendar day. -/
def generateOrderNumber (year month day count : Nat) : String :=
  lastTwo (toString year) ++ padZeros 2 (toString month)
    ++ padZeros 2 (toString day) ++ "-" ++ padZeros 4 (toString (count + 1))

/-- The pre-save order-number hook: only a new document that does not
already carry an order number gets one assigned; every other document
keeps its current value. -/
def orderNumberHook (isNew : Bool) (current : Option String)
    (year month day count : Nat) : Option String :=
  if isNew && current.isNone then some (generateOrderNumber year month day count)
  else current

/-- Claim C5: a first persist of a new order receives the order number
built from the two-digit year, two-digit month, two-digit day, a
hyphen, and the same-tenant same-day count plus one padded to four
digits; the third order of a tenant on 2024-05-01 (count 2) gets
240501-0003, and the hook never touches an existing number or a
non-new document. -/
theorem orderNumber_generation_format :
    (∀ year month day count,
        orderNumberHook true none year month day count
          = some (lastTwo (toString year) ++ padZeros 2 (toString month)
              ++ padZeros 2 (toString day) ++ "-" ++ padZeros 4 (toString (count + 1))))
    ∧ generateOrderNumber 2024 5 1 2 = "240501-0003"
    ∧ orderNumberHook true none 2024 5 1 2 = some "240501-0003"
    ∧ (∀ b num year month day count,
        orderNumberHook b (some num) year month day count = some num)
    ∧ (∀ cur year month day count,
        orderNumberHook false cur year month day count = cur) := by
  refine ⟨fun y m d c => rfl, by decide, by decide, ?_, fun cur y m d c => rfl⟩
  intro b num y m d c
  cases b <;> rfl

/-- The static role to permission-list table of the auth middleware;
roles outside the table resolve to nothing. -/
def ROLE_PERMISSIONS (role : String) : Option (List String) :=
  if role = "customer" then
    some ["order:create", "order:view:own", "menu:view", "profile:view:own",
      "profile:update:own"]
  else if role = "kitchen" then
    some ["order:view", "order:update:status", "kitchen:view", "kitchen:update",
      "menu:view", "inventory:view"]
  else if role = "waiter" then
    some ["order:create", "order:view", "order:update", "order:delete",
      "table:view", "table:update", "menu:view", "customer:view",
      "customer:create", "payment:process", "inventory:view"]
  else if role = "manager" then
    some ["order:*", "table:*", "menu:*", "customer:*", "payment:*",
      "inventory:*", "employee:view", "employee:create", "employee:update",
      "analytics:view", "reports:view", "settings:view", "settings:update"]
  else if role = "admin" then
    some ["*"]
  else none

/-- The static role to hierarchy-level table of the auth middleware. -/
def ROLE_HIERARCHY (role : String) : Option Nat :=
  if role = "customer" then some 1
  else if role = "kitchen" then some 2
  else if role = "waiter" then some 3
  else if role = "manager" then some 4
  else if role = "admin" then some 5
  else none

/-- The first segment of permission.split at the colon: the characters
before the first colon (the whole string when there is none). -/
def resourceOf (p : String) : String :=
  String.mk (p.toList.takeWhile (fun c => c != ':'))

/-- hasPermission of the auth middleware: admin short-circuit, the
star wildcard, the exact match, the resource wildcard built from the
first colon segment, and finally the identity-specific extra
permissions. -/
def hasPermission (userRole : String) (permission : String)
    (userPermissions : Option (List String)) : Bool :=
  if userRole == "admin" then true
  else
    let rolePermissions := (ROLE_PERMISSIONS userRole).getD []
    if rolePermissions.contains "*" then true
    else if rolePermissions.contains permission then true
    else if rolePermissions.contains (resourceOf permission ++ ":*") then true
    else
      match userPermissions with
      | some ps => ps.contains permission
      | none => false

/-- The hierarchy level a role resolves to in requireRoleLevel, with the
zero fallback for roles outside the table. -/
def roleLevel (role : String) : Nat := (ROLE_HIERARCHY role).getD 0

/-- The comparison performed by the requireRoleLevel middleware: the
request goes through exactly when the caller level is at least the
required level. -/
def requireRoleLevelCheck (userRole minimumRole : String) : Bool :=
  decide (roleLevel minimumRole ≤ roleLevel userRole)

/-- The action list of AuthService.requireAdditionalAuth. -/
def sensitiveActions : List String :=
  ["delete_user", "modify_permissions", "access_financial_reports",
    "modify_system_settings", "export_customer_data"]

/-- The outcome of the user lookup inside the try block of
AuthService.requireAdditionalAuth: a user with a role, a lookup that
found nothing (which the code turns into a thrown error), or a lookup
that threw on its own. -/
inductive UserLookup
  | found (role : String)
  | notFound
  | failure
deriving DecidableEq, Repr

/-- AuthService.requireAdditionalAuth: with a found user, true exactly
when the action is sensitive and the role is admin or manager; the
thrown user-not-found error and any lookup failure are caught and
answered with true. -/
def requireAdditionalAuthSvc (lookup : UserLookup) (action : String) : Bool :=
  match lookup with
  | .found role => sensitiveActions.contains action && ["admin", "manager"].contains role
  | .notFound => true
  | .failure => true

/-- Claim C7: the service-level additional-auth check answers true
exactly when the action is in the sensitive-action list and the found
role is admin or manager, and answers true for every action whenever
the lookup threw, user-not-found included. -/
theorem service_requireAdditionalAuth_fail_safe :
    (∀ (role action : String),
        requireAdditionalAuthSvc (UserLookup.found role) action = true
          ↔ action ∈ sensitiveActions ∧ (role = "admin" ∨ role = "manager"))
    ∧ (∀ action, requireAdditionalAuthSvc UserLookup.notFound action = true)
    ∧ (∀ action, requireAdditionalAuthSvc UserLookup.failure action = true) := by
  refine ⟨?_, fun _ => rfl, fun _ => rfl⟩
  intro role action
  simp [requireAdditionalAuthSvc, List.contains, beq_eq_decide]

/-- A list without a colon character is its own takeWhile prefix for
the not-colon predicate. -/
theorem takeWhile_all_of_no_colon (l : List Char) (h : l.contains ':' = false) :
    l.takeWhile (fun c => c != ':') = l := by
  induction l with
  | nil => rfl
  | cons a t ih =>
    have h2 : (':' ∈ a :: t) = False := by simpa using h
    have ha : (a != ':') = true := by
      simp only [bne_iff_ne, ne_eq]
      intro e
      rw [e] at h2
      simp at h2
    have ht : t.contains ':' = false := by
      simp only [eq_iff_iff, iff_false] at h2
      simp only [List.mem_cons, not_or] at h2
      simpa using h2.2
    simp [List.takeWhile_cons, ha, ih ht]

/-- On a permission without a colon the split yields the whole string
back as the resource. -/
theorem resourceOf_eq_self (p : String) (h : p.toList.contains ':' = false) :
    resourceOf p = p := by
  unfold resourceOf
  rw [takeWhile_all_of_no_colon _ h]
  cases p
  rfl

/-- Counterexample to claim C8: the permission string order has no
colon, the caller manager is not admin, the manager list has neither
the star wildcard nor the exact string, no extra permissions are
passed, and still hasPermission answers true, through the resource
wildcard built from the colon-free string. -/
theorem hasPermission_no_colon_counterexample :
    hasPermission "manager" "order" none = true
    ∧ "order".toList.contains ':' = false
    ∧ ("manager" == "admin") = false
    ∧ ((ROLE_PERMISSIONS "manager").getD []).contains "*" = false
    ∧ ((ROLE_PERMISSIONS "manager").getD []).contains "order" = false := by
  decide

/-- Claim C8 amended: for a permission string without a colon the
wildcard-resource check still runs, with the whole string as the
resource; hasPermission answers true exactly through the admin rule,
a literal star in the role list, an exact match in the role list, the
entry permission-colon-star in the role list, or an exact match in the
extra permissions. -/
theorem hasPermission_no_colon_amended (role p : String)
    (extras : Option (List String)) (hnc : p.toList.contains ':' = false) :
    hasPermission role p extras
      = (role == "admin" || ((ROLE_PERMISSIONS role).getD []).contains "*"
        || ((ROLE_PERMISSIONS role).getD []).contains p
        || ((ROLE_PERMISSIONS role).getD []).contains (p ++ ":*")
        || extras.elim false (fun ps => ps.contains p)) := by
  unfold hasPermission
  rw [resourceOf_eq_self p hnc]
  by_cases hm2 : "*" ∈ (ROLE_PERMISSIONS role).getD []
  all_goals by_cases hm3 : p ∈ (ROLE_PERMISSIONS role).getD []
  all_goals by_cases hm4 : (p ++ ":*") ∈ (ROLE_PERMISSIONS role).getD []
  all_goals cases h1 : (role == "admin")
  all_goals cases extras
  all_goals simp [h1, hm2, hm3, hm4]

/-- Witness for the amended claim C8 at the manager role and the
colon-free permission order. -/
theorem hasPermission_no_colon_amended_witness :
    "order".toList.contains ':' = false
    ∧ hasPermission "manager" "order" none
        = (("manager" : String) == "admin"
          || ((ROLE_PERMISSIONS "manager").getD []).contains "*"
          || ((ROLE_PERMISSIONS "manager").getD []).contains "order"
          || ((ROLE_PERMISSIONS "manager").getD []).contains ("order" ++ ":*")
          || (none : Option (List String)).elim false (fun ps => ps.contains "order")) :=
  ⟨by decide, hasPermission_no_colon_amended "manager" "order" none (by decide)⟩

/-- Counterexample to claim C9: the role ghost is outside both static
tables, yet hasPermission answers true when the extra permissions
contain the requested string exactly. -/
theorem unknown_role_counterexample :
    ROLE_PERMISSIONS "ghost" = none
    ∧ ROLE_HIERARCHY "ghost" = none
    ∧ hasPermission "ghost" "reports:view" (some ["reports:view"]) = true := by
  decide

/-- Claim C9 amended: a role outside the static tables resolves to the
empty permission list and hierarchy level 0; the role-level check then
fails for every minimum role of the table, and the permission check
reduces to the extra-permission membership alone, so it fails whenever
no matching extra permission is passed. -/
theorem unknown_role_amended (role p : String) (extras : Option (List String))
    (minRole : String)
    (hperm : ROLE_PERMISSIONS role = none) (hlev : ROLE_HIERARCHY role = none) :
    (ROLE_PERMISSIONS role).getD [] = []
    ∧ roleLevel role = 0
    ∧ hasPermission role p extras = extras.elim false (fun ps => ps.contains p)
    ∧ (1 ≤ roleLevel minRole → requireRoleLevelCheck role minRole = false) := by
  have hadm : (role == "admin") = false := by
    cases hr : (role == "admin") with
    | false => rfl
    | true =>
      exfalso
      have he : role = "admin" := by simpa using hr
      rw [he] at hperm
      have : ROLE_PERMISSIONS "admin" = some ["*"] := rfl
      rw [this] at hperm
      exact Option.noConfusion hperm
  refine ⟨by rw [hperm]; rfl, by rw [roleLevel, hlev]; rfl, ?_, ?_⟩
  · unfold hasPermission
    rw [hperm]
    cases extras <;> simp [hadm]
  · intro hmin
    rw [roleLevel] at hmin
    simp only [requireRoleLevelCheck, roleLevel, hlev, Option.getD_none,
      decide_eq_false_iff_not]
    omega

/-- Witness for the amended claim C9 at the unknown role ghost, with no
extra permissions and the minimum role customer. -/
theorem unknown_role_amended_witness :
    ROLE_PERMISSIONS "ghost" = none
    ∧ ROLE_HIERARCHY "ghost" = none
    ∧ ((ROLE_PERMISSIONS "ghost").getD [] = []
      ∧ roleLevel "ghost" = 0
      ∧ hasPermission "ghost" "order:view" none
          = (none : Option (List String)).elim false (fun ps => ps.contains "order:view")
      ∧ (1 ≤ roleLevel "customer" → requireRoleLevelCheck "ghost" "customer" = false)) :=
  ⟨by decide, by decide,
    unknown_role_amended "ghost" "order:view" none "customer" (by decide) (by decide)⟩

/-- The operation list of the requireAdditionalAuth middleware. -/
def SENSITIVE_OPERATIONS : List String :=
  ["user:delete", "payment:refund", "inventory:delete", "settings:security",
    "data:export", "system:backup"]

/-- Outcome of the step-up middleware. -/
inductive StepUpOutcome
  | next
  | noUser
  | additionalAuthRequired
  | invalidAdditionalAuth
deriving DecidableEq, Repr

/-- Result of jwt.verify on the additional-auth header: a signature or
format failure, or the decoded claims (bound user id, bound operation,
issue time in epoch seconds). -/
inductive StepUpToken
  | badSignature
  | valid (userId : String) (operation : String) (iat : Int)
deriving DecidableEq, Repr

/-- The requireAdditionalAuth middleware: for a sensitive operation the
header token must be present, verify, be bound to the caller and the
operation, and be at most five minutes old; the mismatch throw and the
age throw are both caught and collapsed into the single
INVALID_ADDITIONAL_AUTH response.  The argument now is Date.now in
milliseconds and the token age is now minus iat times 1000. -/
def requireAdditionalAuthMw (operation : String) (user : Option String)
    (token : Option StepUpToken) (now : Int) : StepUpOutcome :=
  match user with
  | none => StepUpOutcome.noUser
  | some uid =>
    if SENSITIVE_OPERATIONS.contains operation then
      match token with
      | none => StepUpOutcome.additionalAuthRequired
      | some StepUpToken.badSignature => StepUpOutcome.invalidAdditionalAuth
      | some (StepUpToken.valid tokenUserId tokenOperation iat) =>
        if tokenUserId != uid || tokenOperation != operation then
          StepUpOutcome.invalidAdditionalAuth
        else if 5 * 60 * 1000 < now - iat * 1000 then
          StepUpOutcome.invalidAdditionalAuth
        else StepUpOutcome.next
    else StepUpOutcome.next

/-- Claim C6: a step-up token for a sensitive operation that verifies
and is bound to the caller and the operation is rejected with
INVALID_ADDITIONAL_AUTH exactly when its age exceeds 300 seconds and
accepted otherwise; issued 301 seconds ago it is rejected, 299 seconds
ago it is accepted. -/
theorem stepUp_token_age_bound (op uid : String) (iat now : Int)
    (hsens : SENSITIVE_OPERATIONS.contains op = true) :
    (requireAdditionalAuthMw op (some uid) (some (StepUpToken.valid uid op iat)) now
        = StepUpOutcome.invalidAdditionalAuth ↔ 300 * 1000 < now - iat * 1000)
    ∧ (now - iat * 1000 ≤ 300 * 1000 →
        requireAdditionalAuthMw op (some uid) (some (StepUpToken.valid uid op iat)) now
          = StepUpOutcome.next)
    ∧ requireAdditionalAuthMw "payment:refund" (some "u1")
        (some (StepUpToken.valid "u1" "payment:refund" 0)) 301000
        = StepUpOutcome.invalidAdditionalAuth
    ∧ requireAdditionalAuthMw "payment:refund" (some "u1")
        (some (StepUpToken.valid "u1" "payment:refund" 0)) 299000
        = StepUpOutcome.next := by
  refine ⟨?_, ?_, by decide, by decide⟩
  · simp only [requireAdditionalAuthMw, hsens, if_true, bne_self_eq_false,
      Bool.or_self, Bool.false_eq_true, if_false]
    by_cases hage : (5 * 60 * 1000 : Int) < now - iat * 1000
    · rw [if_pos hage]
      constructor
      · intro _; omega
      · intro _; rfl
    · rw [if_neg hage]
      constructor
      · intro he; exact absurd he (by simp)
      · intro hgt; omega
  · intro hle
    simp only [requireAdditionalAuthMw, hsens, if_true, bne_self_eq_false,
      Bool.or_self, Bool.false_eq_true, if_false]
    rw [if_neg (by omega)]

/-- Witness for claim C6 at the sensitive operation payment:refund. -/
theorem stepUp_token_age_bound_witness :
    SENSITIVE_OPERATIONS.contains "payment:refund" = true
    ∧ ((requireAdditionalAuthMw "payment:refund" (some "u1")
          (some (StepUpToken.valid "u1" "payment:refund" 0)) 301000
          = StepUpOutcome.invalidAdditionalAuth ↔ (300 * 1000 : Int) < 301000 - 0 * 1000)
      ∧ (301000 - 0 * 1000 ≤ (300 * 1000 : Int) →
          requireAdditionalAuthMw "payment:refund" (some "u1")
            (some (StepUpToken.valid "u1" "payment:refund" 0)) 301000
            = StepUpOutcome.next)
      ∧ requireAdditionalAuthMw "payment:refund" (some "u1")
          (some (StepUpToken.valid "u1" "payment:refund" 0)) 301000
          = StepUpOutcome.invalidAdditionalAuth
      ∧ requireAdditionalAuthMw "payment:refund" (some "u1")
          (some (StepUpToken.valid "u1" "payment:refund" 0)) 299000
          = StepUpOutcome.next) := by
  refine ⟨by decide, ?_⟩
  have h := stepUp_token_age_bound "payment:refund" "u1" 0 301000 (by decide)
  exact ⟨h.1, h.2.1, h.2.2.1, h.2.2.2⟩

end SmartDine
